import Mathlib

set_option maxHeartbeats 1000000

namespace Chat

/-- Identifier of a live transport connection (stands in for the WebSocket object). -/
abbrev ConnId := Nat

/-- Attachment record carried by a chat message payload. -/
structure Attachment where
  name : String
  mime : String
  url : String
  size : Option Nat
deriving DecidableEq

/-- Reaction entry as persisted on a message row: the storage layer keeps
pairs of emoji and reacting user id. -/
structure Reaction where
  emoji : String
  userId : Nat
deriving DecidableEq

/-- Persisted chat message row, with reactions and attachments denormalized
onto the row as in the storage schema. -/
structure Message where
  id : Nat
  conversationId : Nat
  senderId : Nat
  content : String
  attachments : List Attachment
  reactions : List Reaction
  isEdited : Bool
deriving DecidableEq

/-- Conversation row together with the ids of its member users. -/
structure Conversation where
  id : Nat
  members : List Nat
deriving DecidableEq

/-- User row; only the fields the gateway reads or writes. -/
structure User where
  id : Nat
  isOnline : Bool
deriving DecidableEq

/-- The persistence collaborator: the relational tables the gateway touches,
plus the id counter used for fresh message rows. -/
structure Store where
  users : List User
  conversations : List Conversation
  messages : List Message
  nextMessageId : Nat
deriving DecidableEq

/-- storage.getUser: select the user row by id. -/
def getUser (s : Store) (id : Nat) : Option User :=
  s.users.find? (fun u => u.id == id)

/-- storage.updateUserOnlineStatus: update isOnline on the matching user rows
and return the updated row, if any. -/
def updateUserOnlineStatus (s : Store) (id : Nat) (isOnline : Bool) : Store × Option User :=
  let users2 := s.users.map (fun u => if u.id == id then { u with isOnline := isOnline } else u)
  ({ s with users := users2 }, users2.find? (fun u => u.id == id))

/-- storage.getConversationById: the conversation row with its members. -/
def getConversationById (s : Store) (id : Nat) : Option Conversation :=
  s.conversations.find? (fun cv => cv.id == id)

/-- storage.getConversationsForUser: every conversation the user is a member of.
The source orders the result by last-message date; the ordering is irrelevant to
the member set computed from it, so it is not modelled. -/
def getConversationsForUser (s : Store) (userId : Nat) : List Conversation :=
  s.conversations.filter (fun cv => cv.members.contains userId)

/-- Select a message row by id (the leading select shared by the message writers). -/
def findMessage (s : Store) (messageId : Nat) : Option Message :=
  s.messages.find? (fun m => m.id == messageId)

/-- A db.update on the messages table: apply f to every row matching the id. -/
def setMessageRow (s : Store) (messageId : Nat) (f : Message → Message) : Store :=
  { s with messages := s.messages.map (fun m => if m.id == messageId then f m else m) }

/-- storage.createMessage: the messages table declares NOT NULL foreign keys
conversation_id references conversations.id and sender_id references users.id,
so db.insert throws — persisting nothing — when either referenced row is
absent (the gateway catch then swallows the exception); on a successful
insert the subsequent sender select finds the row guaranteed by the sender
foreign key and the fresh row is returned with the sender attached. -/
def createMessage (s : Store) (conversationId senderId : Nat) (content : String)
    (attachments : List Attachment) : Store × Option Message :=
  match getConversationById s conversationId, getUser s senderId with
  | some _, some _ =>
    let m : Message :=
      { id := s.nextMessageId, conversationId := conversationId, senderId := senderId,
        content := content, attachments := attachments, reactions := [], isEdited := false }
    ({ s with messages := s.messages ++ [m], nextMessageId := s.nextMessageId + 1 }, some m)
  | _, _ => (s, none)

/-- storage.updateMessage: none when the message row is missing (no write);
otherwise set content and the edited flag (the timestamp is not modelled) and
return the updated row with its sender attached, none if the sender is gone. -/
def updateMessage (s : Store) (messageId : Nat) (content : String) : Store × Option Message :=
  match findMessage s messageId with
  | none => (s, none)
  | some m =>
    let m2 := { m with content := content, isEdited := true }
    let s2 := setMessageRow s messageId (fun x => { x with content := content, isEdited := true })
    match getUser s m2.senderId with
    | none => (s2, none)
    | some _ => (s2, some m2)

/-- Does the reaction list already hold an entry for this user and emoji? -/
def hasReaction (rs : List Reaction) (userId : Nat) (emoji : String) : Bool :=
  rs.any (fun r => r.userId == userId && r.emoji == emoji)

/-- storage.addReactionToMessage: none when the message row is missing; a
duplicate user+emoji pair leaves the reaction list unchanged, otherwise the
pair is appended; the updated row is written back and returned. -/
def addReactionToMessage (s : Store) (messageId : Nat) (r : Reaction) : Store × Option Message :=
  match findMessage s messageId with
  | none => (s, none)
  | some m =>
    let updated := if hasReaction m.reactions r.userId r.emoji then m.reactions
                   else m.reactions ++ [{ emoji := r.emoji, userId := r.userId }]
    let m2 := { m with reactions := updated }
    let s2 := setMessageRow s messageId (fun x => { x with reactions := updated })
    match getUser s m2.senderId with
    | none => (s2, none)
    | some _ => (s2, some m2)

/-- storage.removeReactionFromMessage: filter out the matching user+emoji pair;
a missing message row yields none with no write. -/
def removeReactionFromMessage (s : Store) (messageId userId : Nat) (emoji : String) :
    Store × Option Message :=
  match findMessage s messageId with
  | none => (s, none)
  | some m =>
    let updated := m.reactions.filter (fun r => !(r.userId == userId && r.emoji == emoji))
    let m2 := { m with reactions := updated }
    let s2 := setMessageRow s messageId (fun x => { x with reactions := updated })
    match getUser s m2.senderId with
    | none => (s2, none)
    | some _ => (s2, some m2)

/-- One tracked transport connection: its handle, whether the transport is
open, and the per-connection closure variable userId of the message handler
(none while unauthenticated; an authenticate carrying a non-numeric id leaves
the variable NaN, which every later truthiness test treats exactly like the
unset state, so it is modelled as none as well). -/
structure Conn where
  id : ConnId
  isOpen : Bool
  user : Option Nat
deriving DecidableEq

/-- Whole gateway state: the tracked connections, the module-level clients
registry mapping user id to connection, and the Store collaborator. -/
structure World where
  conns : List Conn
  clients : List (Nat × ConnId)
  store : Store
deriving DecidableEq

/-- Map.set of the clients registry: replace the entry for the key in place,
or append a fresh one. -/
def mapSet : List (Nat × ConnId) → Nat → ConnId → List (Nat × ConnId)
  | [], k, v => [(k, v)]
  | e :: t, k, v => if e.1 == k then (k, v) :: t else e :: mapSet t k v

/-- Map.get of the clients registry. -/
def mapGet : List (Nat × ConnId) → Nat → Option ConnId
  | [], _ => none
  | e :: t, k => if e.1 == k then some e.2 else mapGet t k

/-- Map.delete of the clients registry. -/
def mapDelete : List (Nat × ConnId) → Nat → List (Nat × ConnId)
  | [], _ => []
  | e :: t, k => if e.1 == k then mapDelete t k else e :: mapDelete t k

/-- Find a tracked connection by id. -/
def findConn (w : World) (c : ConnId) : Option Conn :=
  w.conns.find? (fun x => x.id == c)

/-- The per-connection closure variable userId of connection c. -/
def connUser (w : World) (c : ConnId) : Option Nat :=
  match findConn w c with
  | none => none
  | some cn => cn.user

/-- readyState of connection c equals OPEN. -/
def connOpen (w : World) (c : ConnId) : Bool :=
  match findConn w c with
  | none => false
  | some cn => cn.isOpen

/-- Assign the closure variable userId of connection c. -/
def setConnUser (w : World) (c : ConnId) (u : Option Nat) : World :=
  { w with conns := w.conns.map (fun x => if x.id == c then { x with user := u } else x) }

/-- Record the transport state of connection c. -/
def setConnOpen (w : World) (c : ConnId) (b : Bool) : World :=
  { w with conns := w.conns.map (fun x => if x.id == c then { x with isOpen := b } else x) }

/-- JavaScript truthiness of the numeric userId closure variable: undefined,
NaN (both modelled none) and 0 are falsy. -/
def natTruthy : Option Nat → Bool
  | none => false
  | some n => n != 0

/-- JavaScript truthiness of an optional string field: undefined and the empty
string are falsy. -/
def strTruthy : Option String → Bool
  | none => false
  | some s => s != ""

/-- Events the gateway pushes to clients, mirroring the serialized envelopes. -/
inductive OutEvent where
  | connected (message : String)
  | new_message (conversationId : Nat) (message : Message)
  | message_updated (conversationId : Nat) (message : Message)
  | message_reacted (conversationId : Nat) (message : Message)
  | message_reaction_removed (conversationId : Nat) (message : Message)
  | typing (conversationId : Nat) (userId : Nat)
  | user_status (userId : Nat) (isOnline : Bool)
  | error (message : String)
deriving DecidableEq

/-- One push over a connection: which connection, which envelope. -/
abbrev Delivery := ConnId × OutEvent

/-- Inbound envelope after JSON parsing. The message field is untyped in the
source: for an authenticate it is read through Number(), modelled by authValue
(none standing for NaN); for a send-message it is read as the content string,
modelled by message. -/
structure MessagePayload where
  ptype : String
  conversationId : Option Nat := none
  message : Option String := none
  authValue : Option Nat := none
  messageId : Option Nat := none
  content : Option String := none
  emoji : Option String := none
  attachments : Option (List Attachment) := none
deriving DecidableEq

/-- The forEach fan-out loop: for each member in order, look the member up in
the clients registry and push the envelope when the connection is open. -/
def sendToMembers (w : World) (members : List Nat) (ev : OutEvent) : List Delivery :=
  members.filterMap (fun mid =>
    match mapGet w.clients mid with
    | none => none
    | some cid => if connOpen w cid then some (cid, ev) else none)

/-- Set.add of the uniqueMembers set: append if not yet present, keeping
insertion order as a JavaScript Set does. -/
def setAdd (acc : List Nat) (m : Nat) : List Nat :=
  if acc.contains m then acc else acc ++ [m]

/-- The nested forEach that fills the uniqueMembers set of broadcastUserStatus. -/
def uniqueMembersOf (convs : List Conversation) : List Nat :=
  convs.foldl (fun acc cv => cv.members.foldl setAdd acc) []

/-- broadcastUserStatus: look the user up, collect the distinct members of all
conversations of the user in first-seen order, and push user_status to every
reachable member other than the user. -/
def broadcastUserStatus (w : World) (userId : Nat) (isOnline : Bool) : List Delivery :=
  match getUser w.store userId with
  | none => []
  | some _ =>
    let uniqueMembers := uniqueMembersOf (getConversationsForUser w.store userId)
    (uniqueMembers.filter (fun m => m != userId)).filterMap (fun mid =>
      match mapGet w.clients mid with
      | none => none
      | some cid => if connOpen w cid then some (cid, OutEvent.user_status userId isOnline) else none)

/-- The ws message handler of setupSocketServer: dispatch on the envelope type,
returning the successor world together with the pushes performed, in order.
A storage throw is caught by the surrounding try, so the branch stops pushing
while keeping the writes already made. -/
def handleMessageEvent (w : World) (c : ConnId) (p : MessagePayload) : World × List Delivery :=
  let uid := connUser w c
  if p.ptype == "authenticate" then
    match p.authValue with
    | none => (setConnUser w c none, [])
    | some u =>
      let w1 := setConnUser w c (some u)
      let w2 := { w1 with clients := mapSet w1.clients u c }
      let w3 := { w2 with store := (updateUserOnlineStatus w2.store u true).1 }
      (w3, broadcastUserStatus w3 u true)
  else if p.ptype == "message" then
    if !(natTruthy uid) then (w, [(c, OutEvent.error "Not authenticated")])
    else if !(natTruthy p.conversationId) || !(strTruthy p.message) then
      (w, [(c, OutEvent.error "Invalid message format")])
    else
      let cid := p.conversationId.getD 0
      let u := uid.getD 0
      let res := createMessage w.store cid u (p.message.getD "") (p.attachments.getD [])
      let w1 := { w with store := res.1 }
      match res.2 with
      | none => (w1, [])
      | some saved =>
        match getConversationById w1.store cid with
        | none => (w1, [])
        | some conv => (w1, sendToMembers w1 conv.members (OutEvent.new_message cid saved))
  else if p.ptype == "typing" then
    if !(natTruthy uid) || !(natTruthy p.conversationId) then (w, [])
    else
      let u := uid.getD 0
      let cid := p.conversationId.getD 0
      match getConversationById w.store cid with
      | none => (w, [])
      | some conv =>
        (w, sendToMembers w (conv.members.filter (fun m => m != u)) (OutEvent.typing cid u))
  else if p.ptype == "edit_message" then
    if !(natTruthy uid) || !(natTruthy p.messageId) || !(strTruthy p.content) then
      (w, [(c, OutEvent.error "Invalid message edit format")])
    else
      let res := updateMessage w.store (p.messageId.getD 0) (p.content.getD "")
      let w1 := { w with store := res.1 }
      match res.2 with
      | none => (w1, [(c, OutEvent.error "Failed to update message")])
      | some upd =>
        match getConversationById w1.store upd.conversationId with
        | none => (w1, [])
        | some conv =>
          (w1, sendToMembers w1 conv.members (OutEvent.message_updated upd.conversationId upd))
  else if p.ptype == "add_reaction" then
    if !(natTruthy uid) || !(natTruthy p.messageId) || !(strTruthy p.emoji) then
      (w, [(c, OutEvent.error "Invalid reaction format")])
    else
      let u := uid.getD 0
      let res := addReactionToMessage w.store (p.messageId.getD 0)
        { emoji := p.emoji.getD "", userId := u }
      let w1 := { w with store := res.1 }
      match res.2 with
      | none => (w1, [(c, OutEvent.error "Failed to add reaction")])
      | some m2 =>
        match getConversationById w1.store m2.conversationId with
        | none => (w1, [])
        | some conv =>
          (w1, sendToMembers w1 conv.members (OutEvent.message_reacted m2.conversationId m2))
  else if p.ptype == "remove_reaction" then
    if !(natTruthy uid) || !(natTruthy p.messageId) || !(strTruthy p.emoji) then
      (w, [(c, OutEvent.error "Invalid reaction removal format")])
    else
      let u := uid.getD 0
      let res := removeReactionFromMessage w.store (p.messageId.getD 0) u (p.emoji.getD "")
      let w1 := { w with store := res.1 }
      match res.2 with
      | none => (w1, [(c, OutEvent.error "Failed to remove reaction")])
      | some m2 =>
        match getConversationById w1.store m2.conversationId with
        | none => (w1, [])
        | some conv =>
          (w1, sendToMembers w1 conv.members
            (OutEvent.message_reaction_removed m2.conversationId m2))
  else (w, [])

/-- The ws close handler: the transport is closed, then, when the closure
variable userId is truthy, the registry entry for that user id is deleted
unconditionally, the user is marked offline and the offline status broadcast. -/
def handleClose (w : World) (c : ConnId) : World × List Delivery :=
  let w0 := setConnOpen w c false
  match connUser w c with
  | none => (w0, [])
  | some u =>
    if u == 0 then (w0, [])
    else
      let w1 := { w0 with clients := mapDelete w0.clients u }
      let w2 := { w1 with store := (updateUserOnlineStatus w1.store u false).1 }
      (w2, broadcastUserStatus w2 u false)

/-- One entry of the client outbound queue, mirroring the QueuedMessage union. -/
inductive QueuedMessage where
  | message (conversationId : Nat) (content : String) (attachments : List Attachment)
  | edit_message (messageId : Nat) (content : String)
  | add_reaction (messageId : Nat) (emoji : String)
  | remove_reaction (messageId : Nat) (emoji : String)
  | typing (conversationId : Nat)
deriving DecidableEq

/-- The while loop of processMessageQueue: shift the head, try to send it
(attempt i succeeds when sendOk i), on success keep going, on failure unshift
the failed entry and break. Returns the entries sent in order, paired with the
queue left behind. -/
def drainQueue (sendOk : Nat → Bool) : List QueuedMessage → Nat → List QueuedMessage × List QueuedMessage
  | [], _ => ([], [])
  | m :: rest, i =>
    if sendOk i then
      let r := drainQueue sendOk rest (i + 1)
      (m :: r.1, r.2)
    else ([], m :: rest)

/-- processMessageQueue: drain only when the socket is open and the queue is
nonempty; otherwise nothing is sent and the queue is untouched. -/
def processMessageQueue (socketIsOpen : Bool) (sendOk : Nat → Bool) (q : List QueuedMessage) :
    List QueuedMessage × List QueuedMessage :=
  if socketIsOpen && !q.isEmpty then drainQueue sendOk q 0 else ([], q)

/-- MAX_RECONNECT_ATTEMPTS of the client socket module. -/
def MAX_RECONNECT_ATTEMPTS : Nat := 5

/-- RECONNECT_DELAY_MS of the client socket module. -/
def RECONNECT_DELAY_MS : Nat := 3000

/-- The module-level client connection state: whether a reconnect timer is
pending, the reconnect attempt counter, and the remembered user id. -/
structure ClientConnState where
  timerPending : Bool
  reconnectAttempts : Nat
  currentUserId : Option Nat
deriving DecidableEq

/-- reconnectSocket: bail out when a timer is already pending or the remembered
user id is falsy; otherwise, while under the attempt bound, schedule one timer
with the fixed delay (returned as some delay); over the bound, do nothing. -/
def reconnectSocket (s : ClientConnState) : ClientConnState × Option Nat :=
  if s.timerPending || !(natTruthy s.currentUserId) then (s, none)
  else if s.reconnectAttempts < MAX_RECONNECT_ATTEMPTS then
    ({ s with timerPending := true }, some RECONNECT_DELAY_MS)
  else (s, none)

/-- The body of the scheduled timer: a connect attempt is made, the attempt
counter is incremented and the timer slot cleared. -/
def fireReconnectTimer (s : ClientConnState) : ClientConnState :=
  { s with reconnectAttempts := s.reconnectAttempts + 1, timerPending := false }

/-- The socket onopen handler effect on the reconnect state: the attempt
counter resets and any pending timer is cleared. -/
def socketOpenSuccess (s : ClientConnState) : ClientConnState :=
  { s with reconnectAttempts := 0, timerPending := false }

/-- Events driving the client reconnect state between transport openings. -/
inductive ClientEvent where
  | reconnectCall
  | timerFire
  | openOk
deriving DecidableEq

/-- One client reconnect event: the successor state plus whether this event
scheduled a reconnect timer. A timerFire only acts when a timer is pending. -/
def clientStep (s : ClientConnState) : ClientEvent → ClientConnState × Bool
  | ClientEvent.reconnectCall =>
    let r := reconnectSocket s
    (r.1, r.2.isSome)
  | ClientEvent.timerFire =>
    if s.timerPending then (fireReconnectTimer s, false) else (s, false)
  | ClientEvent.openOk => (socketOpenSuccess s, false)

/-- Run a sequence of client reconnect events, counting scheduled timers. -/
def runClient (s : ClientConnState) : List ClientEvent → ClientConnState × Nat
  | [] => (s, 0)
  | e :: es =>
    let r := clientStep s e
    let rest := runClient r.1 es
    (rest.1, r.2.toNat + rest.2)

/-- find? commutes with mapping a function that preserves the predicate. -/
theorem find_map_pres {α} (f : α → α) (p : α → Bool) (h : ∀ x, p (f x) = p x) (l : List α) :
    (l.map f).find? p = (l.find? p).map f := by
  induction l with
  | nil => rfl
  | cons a t ih =>
    simp only [List.map_cons]
    cases hpa : p a
    · rw [List.find?_cons_of_neg, List.find?_cons_of_neg]
      · exact ih
      · simp [hpa]
      · simp [h a, hpa]
    · rw [List.find?_cons_of_pos, List.find?_cons_of_pos]
      · rfl
      · exact hpa
      · rw [h a]; exact hpa

/-- Looking up the key just set yields the value just stored. -/
theorem mapGet_mapSet_self (m : List (Nat × ConnId)) (k : Nat) (v : ConnId) :
    mapGet (mapSet m k v) k = some v := by
  induction m with
  | nil => simp [mapSet, mapGet]
  | cons e t ih =>
    by_cases h : e.1 = k
    · simp [mapSet, mapGet, h]
    · simp [mapSet, mapGet, h, ih]

/-- Setting one key leaves lookups of other keys unchanged. -/
theorem mapGet_mapSet_ne (m : List (Nat × ConnId)) (k j : Nat) (v : ConnId) (h : j ≠ k) :
    mapGet (mapSet m k v) j = mapGet m j := by
  induction m with
  | nil => simp [mapSet, mapGet, h, Ne.symm h]
  | cons e t ih =>
    by_cases h2 : e.1 = k
    · simp [mapSet, mapGet, h2, h, Ne.symm h]
    · by_cases h3 : e.1 = j <;> simp [mapSet, mapGet, h2, h3, h, Ne.symm h, ih]

/-- A deleted key is absent. -/
theorem mapGet_mapDelete_self (m : List (Nat × ConnId)) (k : Nat) :
    mapGet (mapDelete m k) k = none := by
  induction m with
  | nil => rfl
  | cons e t ih =>
    by_cases h : e.1 = k <;> simp [mapDelete, mapGet, h, ih]

/-- Deleting one key leaves lookups of other keys unchanged. -/
theorem mapGet_mapDelete_ne (m : List (Nat × ConnId)) (k j : Nat) (h : j ≠ k) :
    mapGet (mapDelete m k) j = mapGet m j := by
  induction m with
  | nil => rfl
  | cons e t ih =>
    by_cases h2 : e.1 = k
    · simp [mapDelete, mapGet, h2, Ne.symm h, h, ih]
    · by_cases h3 : e.1 = j <;> simp [mapDelete, mapGet, h2, h3, h, Ne.symm h, ih]

/-- Recording a transport state change does not alter any closure userId. -/
theorem connUser_setConnOpen (w : World) (c : ConnId) (b : Bool) (j : ConnId) :
    connUser (setConnOpen w c b) j = connUser w j := by
  simp only [connUser, findConn, setConnOpen]
  rw [find_map_pres (fun x => if x.id == c then { x with isOpen := b } else x)
    (fun x => x.id == j) (by intro x; by_cases h : x.id = c <;> simp [h]) w.conns]
  cases h : w.conns.find? (fun x => x.id == j) with
  | none => rfl
  | some cn => by_cases h2 : cn.id = c <;> simp [h2]

/-- Assigning a closure userId does not alter the open state of any connection. -/
theorem connOpen_setConnUser (w : World) (c : ConnId) (u : Option Nat) (j : ConnId) :
    connOpen (setConnUser w c u) j = connOpen w j := by
  simp only [connOpen, findConn, setConnUser]
  rw [find_map_pres (fun x => if x.id == c then { x with user := u } else x)
    (fun x => x.id == j) (by intro x; by_cases h : x.id = c <;> simp [h]) w.conns]
  cases h : w.conns.find? (fun x => x.id == j) with
  | none => rfl
  | some cn => by_cases h2 : cn.id = c <;> simp [h2]

/-- Closing one connection leaves the open state of the other connections. -/
theorem connOpen_setConnOpen_ne (w : World) (c : ConnId) (b : Bool) (j : ConnId) (h : j ≠ c) :
    connOpen (setConnOpen w c b) j = connOpen w j := by
  simp only [connOpen, findConn, setConnOpen]
  rw [find_map_pres (fun x => if x.id == c then { x with isOpen := b } else x)
    (fun x => x.id == j) (by intro x; by_cases h2 : x.id = c <;> simp [h2]) w.conns]
  cases hf : w.conns.find? (fun x => x.id == j) with
  | none => rfl
  | some cn =>
    have : cn.id = j := by simpa using List.find?_some hf
    by_cases h2 : cn.id = c
    · exact absurd (this ▸ h2) h
    · simp [h2]

/-- The closure userId just assigned is the one read back. -/
theorem connUser_setConnUser_self (w : World) (c : ConnId) (u : Option Nat) (cn : Conn)
    (hf : findConn w c = some cn) :
    connUser (setConnUser w c u) c = u := by
  simp only [connUser, findConn, setConnUser]
  rw [find_map_pres (fun x => if x.id == c then { x with user := u } else x)
    (fun x => x.id == c) (by intro x; by_cases h : x.id = c <;> simp [h]) w.conns]
  have : cn.id = c := by simpa using List.find?_some hf
  simp only [findConn] at hf
  simp [hf, this]

/-- Updating a user row keeps the conversations table. -/
theorem getConversationsForUser_updateOnline (s : Store) (id : Nat) (b : Bool) (x : Nat) :
    getConversationsForUser (updateUserOnlineStatus s id b).1 x = getConversationsForUser s x := rfl

/-- Updating a user row keeps the conversation lookups. -/
theorem getConversationById_updateOnline (s : Store) (id : Nat) (b : Bool) (x : Nat) :
    getConversationById (updateUserOnlineStatus s id b).1 x = getConversationById s x := rfl

/-- After updateUserOnlineStatus the row carries the new flag. -/
theorem getUser_updateOnline_self (s : Store) (id : Nat) (b : Bool) (u : User)
    (h : getUser s id = some u) :
    getUser (updateUserOnlineStatus s id b).1 id = some { u with isOnline := b } := by
  simp only [getUser, updateUserOnlineStatus] at h ⊢
  rw [find_map_pres (fun x => if x.id == id then { x with isOnline := b } else x)
    (fun x => x.id == id) (by intro x; by_cases h2 : x.id = id <;> simp [h2]) s.users]
  have : u.id = id := by simpa using List.find?_some h
  simp [h, this]

/-- The fresh message row createMessage inserts. -/
def freshMessage (s : Store) (cid sid : Nat) (content : String) (atts : List Attachment) : Message :=
  { id := s.nextMessageId, conversationId := cid, senderId := sid, content := content,
    attachments := atts, reactions := [], isEdited := false }

/-- The store after inserting one fresh message row. -/
def storeAfterInsert (s : Store) (m : Message) : Store :=
  { s with messages := s.messages ++ [m], nextMessageId := s.nextMessageId + 1 }

/-- createMessage evaluated when both referenced rows exist: the foreign keys
hold, so the row is inserted and returned. -/
theorem createMessage_eq (s : Store) (cid sid : Nat) (content : String) (atts : List Attachment)
    (cv : Conversation) (u : User)
    (hcv : getConversationById s cid = some cv) (h : getUser s sid = some u) :
    createMessage s cid sid content atts =
      (storeAfterInsert s (freshMessage s cid sid content atts),
       some (freshMessage s cid sid content atts)) := by
  simp only [createMessage, hcv, h, storeAfterInsert, freshMessage]

/-- Fan-out reads only the registry and the connections, never the store. -/
theorem sendToMembers_store (w : World) (st : Store) (ms : List Nat) (ev : OutEvent) :
    sendToMembers { w with store := st } ms ev = sendToMembers w ms ev := rfl

/-- Fan-out over three reachable members delivers to their three connections. -/
theorem sendToMembers_three (w : World) (a b c : Nat) (ca cb cc : ConnId) (ev : OutEvent)
    (h7 : mapGet w.clients a = some ca) (h8 : mapGet w.clients b = some cb)
    (h9 : mapGet w.clients c = some cc)
    (h10 : connOpen w ca = true) (h11 : connOpen w cb = true) (h12 : connOpen w cc = true) :
    sendToMembers w [a, b, c] ev = [(ca, ev), (cb, ev), (cc, ev)] := by
  simp [sendToMembers, h7, h8, h9, h10, h11, h12]

/-- Example world for the P2 fan-out scenario: conversation 7 has members
1, 2 and 3, all registered with open connections 10, 11 and 12. -/
def exW1 : World :=
  { conns := [{ id := 10, isOpen := true, user := some 1 },
              { id := 11, isOpen := true, user := some 2 },
              { id := 12, isOpen := true, user := some 3 }],
    clients := [(1, 10), (2, 11), (3, 12)],
    store := { users := [{ id := 1, isOnline := true }, { id := 2, isOnline := true },
                         { id := 3, isOnline := true }],
               conversations := [{ id := 7, members := [1, 2, 3] }],
               messages := [], nextMessageId := 100 } }

/-- The send-message envelope used in the fan-out scenario. -/
def pHi : MessagePayload := { ptype := "message", conversationId := some 7, message := some "hi" }

/-- C1: the claim asserts that the sender A receives no new_message delivery.
In the concrete scenario (conversation 7 with members 1, 2, 3 all reachable,
user 1 sending on connection 10) the fan-out loop iterates over every member
of the conversation without excluding the sender, so connection 10 receives
exactly one new_message delivery as well, refuting the claim. -/
theorem C1_counterexample :
    ((handleMessageEvent exW1 10 pHi).2).count
      (10, OutEvent.new_message 7 (freshMessage exW1.store 7 1 "hi" [])) = 1 := by decide

/-- C1 (amended): for a conversation with members {A,B,C} all currently
reachable, a send-message by A results in exactly one new_message delivery to
each member with an open registered connection — including the sender A — and
the delivered payload equals the message persisted by the Store. -/
theorem C1_fanout_all_members (w : World) (k a b c ca cb cc : Nat) (content : String) (ua : User)
    (h1 : connUser w ca = some a) (h2 : a ≠ 0) (h3 : k ≠ 0) (h4 : content ≠ "")
    (h5 : getUser w.store a = some ua)
    (h6 : getConversationById w.store k = some { id := k, members := [a, b, c] })
    (h7 : mapGet w.clients a = some ca) (h8 : mapGet w.clients b = some cb)
    (h9 : mapGet w.clients c = some cc)
    (h10 : connOpen w ca = true) (h11 : connOpen w cb = true) (h12 : connOpen w cc = true)
    (hd1 : ca ≠ cb) (hd2 : ca ≠ cc) (hd3 : cb ≠ cc) :
    (handleMessageEvent w ca { ptype := "message", conversationId := some k, message := some content }).1.store.messages
      = w.store.messages ++ [freshMessage w.store k a content []]
    ∧ (handleMessageEvent w ca { ptype := "message", conversationId := some k, message := some content }).2
      = [(ca, OutEvent.new_message k (freshMessage w.store k a content [])),
         (cb, OutEvent.new_message k (freshMessage w.store k a content [])),
         (cc, OutEvent.new_message k (freshMessage w.store k a content []))]
    ∧ ((handleMessageEvent w ca { ptype := "message", conversationId := some k, message := some content }).2).count
        (ca, OutEvent.new_message k (freshMessage w.store k a content [])) = 1
    ∧ ((handleMessageEvent w ca { ptype := "message", conversationId := some k, message := some content }).2).count
        (cb, OutEvent.new_message k (freshMessage w.store k a content [])) = 1
    ∧ ((handleMessageEvent w ca { ptype := "message", conversationId := some k, message := some content }).2).count
        (cc, OutEvent.new_message k (freshMessage w.store k a content [])) = 1 := by
  have hc2 : getConversationById
      (storeAfterInsert w.store (freshMessage w.store k a content [])) k
      = some { id := k, members := [a, b, c] } := by
    simpa [getConversationById, storeAfterInsert] using h6
  have hsend : sendToMembers w [a, b, c]
      (OutEvent.new_message k (freshMessage w.store k a content []))
      = [(ca, OutEvent.new_message k (freshMessage w.store k a content [])),
         (cb, OutEvent.new_message k (freshMessage w.store k a content [])),
         (cc, OutEvent.new_message k (freshMessage w.store k a content []))] :=
    sendToMembers_three w a b c ca cb cc _ h7 h8 h9 h10 h11 h12
  have hrun : handleMessageEvent w ca
      { ptype := "message", conversationId := some k, message := some content }
      = ({ w with store := storeAfterInsert w.store (freshMessage w.store k a content []) },
         [(ca, OutEvent.new_message k (freshMessage w.store k a content [])),
          (cb, OutEvent.new_message k (freshMessage w.store k a content [])),
          (cc, OutEvent.new_message k (freshMessage w.store k a content []))]) := by
    simp only [handleMessageEvent, h1]
    simp [natTruthy, strTruthy, h2, h3, h4]
    rw [createMessage_eq w.store k a content [] { id := k, members := [a, b, c] } ua h6 h5]
    simp [hc2, sendToMembers_store, hsend]
  rw [hrun]
  refine ⟨by simp [storeAfterInsert], rfl, ?_, ?_, ?_⟩ <;>
    simp [List.count_cons, hd1, hd2, hd3, Ne.symm hd1, Ne.symm hd2, Ne.symm hd3]

/-- C1 witness: the amended fan-out theorem instantiated in the concrete
three-member scenario. -/
theorem C1_witness :
    (handleMessageEvent exW1 10 pHi).1.store.messages
      = exW1.store.messages ++ [freshMessage exW1.store 7 1 "hi" []]
    ∧ (handleMessageEvent exW1 10 pHi).2
      = [(10, OutEvent.new_message 7 (freshMessage exW1.store 7 1 "hi" [])),
         (11, OutEvent.new_message 7 (freshMessage exW1.store 7 1 "hi" [])),
         (12, OutEvent.new_message 7 (freshMessage exW1.store 7 1 "hi" []))]
    ∧ ((handleMessageEvent exW1 10 pHi).2).count
        (10, OutEvent.new_message 7 (freshMessage exW1.store 7 1 "hi" [])) = 1
    ∧ ((handleMessageEvent exW1 10 pHi).2).count
        (11, OutEvent.new_message 7 (freshMessage exW1.store 7 1 "hi" [])) = 1
    ∧ ((handleMessageEvent exW1 10 pHi).2).count
        (12, OutEvent.new_message 7 (freshMessage exW1.store 7 1 "hi" [])) = 1 :=
  C1_fanout_all_members exW1 7 1 2 3 10 11 12 "hi" { id := 1, isOnline := true }
    (by decide) (by decide) (by decide) (by decide) (by decide) (by decide)
    (by decide) (by decide) (by decide) (by decide) (by decide) (by decide)
    (by decide) (by decide) (by decide)

/-- Transport helper: fan-out to a single unregistered user delivers nothing. -/
theorem sendToMembers_absent (w : World) (u : Nat) (ev : OutEvent)
    (h : mapGet w.clients u = none) : sendToMembers w [u] ev = [] := by
  simp [sendToMembers, h]

/-- Example world for the double-authentication scenario: connections 1 and 2
are open and unauthenticated; user 1 exists in the store. -/
def exW2 : World :=
  { conns := [{ id := 1, isOpen := true, user := none },
              { id := 2, isOpen := true, user := none }],
    clients := [],
    store := { users := [{ id := 1, isOnline := true }], conversations := [],
               messages := [], nextMessageId := 0 } }

/-- The authenticate envelope carrying user id 1. -/
def pAuthU1 : MessagePayload := { ptype := "authenticate", authValue := some 1 }

/-- C2: the claim asserts that after connection 1 authenticates as user 1,
connection 2 authenticates as user 1, and connection 1 closes, the registry
still maps user 1 to connection 2. The close handler deletes the entry for the
closing connection userId without comparing connection identities, so the
lookup yields none instead of connection 2, refuting the claim. -/
theorem C2_counterexample :
    mapGet ((handleClose
      (handleMessageEvent (handleMessageEvent exW2 1 pAuthU1).1 2 pAuthU1).1 1).1).clients 1
      = none := by decide

/-- C2 (amended): on close of a connection whose closure userId is truthy, the
registry entry for that user id is removed unconditionally — even when the
registry currently maps the user to a different, newer connection — and a
subsequent fan-out addressed to that user reaches no connection at all. -/
theorem C2_close_removes_unconditionally (w : World) (c : ConnId) (u : Nat) (ev : OutEvent)
    (h1 : connUser w c = some u) (h2 : u ≠ 0) :
    mapGet (handleClose w c).1.clients u = none
    ∧ sendToMembers (handleClose w c).1 [u] ev = [] := by
  have hdel : (handleClose w c).1.clients = mapDelete w.clients u := by
    have hco : (setConnOpen w c false).clients = w.clients := rfl
    simp [handleClose, h1, h2, hco]
  have hget : mapGet (handleClose w c).1.clients u = none := by
    rw [hdel]; exact mapGet_mapDelete_self w.clients u
  exact ⟨hget, sendToMembers_absent _ u ev hget⟩

/-- C2 witness: in the double-authentication world, after both connections
authenticate as user 1 the registry maps user 1 to connection 2, yet closing
connection 1 still removes the entry and a fan-out to user 1 delivers nothing. -/
theorem C2_witness :
    mapGet (handleClose
      (handleMessageEvent (handleMessageEvent exW2 1 pAuthU1).1 2 pAuthU1).1 1).1.clients 1 = none
    ∧ sendToMembers (handleClose
        (handleMessageEvent (handleMessageEvent exW2 1 pAuthU1).1 2 pAuthU1).1 1).1 [1]
        (OutEvent.typing 7 1) = [] :=
  C2_close_removes_unconditionally
    (handleMessageEvent (handleMessageEvent exW2 1 pAuthU1).1 2 pAuthU1).1 1 1
    (OutEvent.typing 7 1) (by decide) (by decide)

/-- hasReaction over an appended matching pair is true. -/
theorem hasReaction_append_self (rs : List Reaction) (uid : Nat) (em : String) :
    hasReaction (rs ++ [{ emoji := em, userId := uid }]) uid em = true := by
  simp [hasReaction]

/-- findMessage after setMessageRow with an id-preserving update returns the
updated row. -/
theorem findMessage_setMessageRow (s : Store) (mid : Nat) (rs : List Reaction) (m : Message)
    (h : findMessage s mid = some m) :
    findMessage (setMessageRow s mid (fun x => { x with reactions := rs })) mid
      = some { m with reactions := rs } := by
  simp only [findMessage, setMessageRow] at h ⊢
  rw [find_map_pres (fun x => if x.id == mid then { x with reactions := rs } else x)
    (fun x => x.id == mid) (by intro x; by_cases h2 : x.id = mid <;> simp [h2]) s.messages]
  have : m.id = mid := by simpa using List.find?_some h
  simp [h, this]

/-- C3: adding the same {messageId, userId, emoji} reaction twice: the second
call succeeds (returns the updated row rather than erroring) and leaves the
reaction set exactly as it was after the first call; when the pair was not
present initially, the first call grew the set by exactly one entry. -/
theorem C3_reaction_idempotent (s : Store) (mid : Nat) (r : Reaction) (s1 : Store)
    (m0 m1 : Message)
    (h0 : findMessage s mid = some m0)
    (h : addReactionToMessage s mid r = (s1, some m1)) :
    (addReactionToMessage s1 mid r).2 = some m1
    ∧ findMessage (addReactionToMessage s1 mid r).1 mid = some m1
    ∧ (hasReaction m0.reactions r.userId r.emoji = false →
        m1.reactions.length = m0.reactions.length + 1) := by
  simp only [addReactionToMessage, h0] at h
  cases hu : getUser s m0.senderId with
  | none => rw [hu] at h; simp at h
  | some su =>
    rw [hu] at h
    simp only [Prod.mk.injEq, Option.some.injEq] at h
    obtain ⟨hs1, hm1⟩ := h
    have hfind1 : findMessage s1 mid = some m1 := by
      rw [← hs1, ← hm1]
      exact findMessage_setMessageRow s mid _ m0 h0
    have hhas : hasReaction m1.reactions r.userId r.emoji = true := by
      rw [← hm1]
      by_cases hc : hasReaction m0.reactions r.userId r.emoji
      · simp [hc]
      · simp only [hc]
        simp only [Bool.false_eq_true, if_false]
        exact hasReaction_append_self m0.reactions r.userId r.emoji
    have husers : getUser s1 m1.senderId = some su := by
      rw [← hs1, ← hm1]
      exact hu
    have hm1eta : ({ m1 with reactions := m1.reactions } : Message) = m1 := rfl
    refine ?_
    simp only [addReactionToMessage, hfind1, hhas, if_true, husers]
    refine ⟨trivial, ?_, ?_⟩
    · have := findMessage_setMessageRow s1 mid m1.reactions m1 hfind1
      rw [this]
    · intro hnot
      rw [← hm1]
      simp [hnot]

/-- Example store for the reaction scenario: message 5 in conversation 7 with
no reactions yet. -/
def exS3 : Store :=
  { users := [{ id := 1, isOnline := true }, { id := 4, isOnline := true }],
    conversations := [{ id := 7, members := [1, 4] }],
    messages := [{ id := 5, conversationId := 7, senderId := 4, content := "m",
                   attachments := [], reactions := [], isEdited := false }],
    nextMessageId := 6 }

/-- The message row of exS3 after user 1 reacts with the thumbs emoji once. -/
def exM3 : Message :=
  { id := 5, conversationId := 7, senderId := 4, content := "m",
    attachments := [], reactions := [{ emoji := "+1", userId := 1 }], isEdited := false }

/-- The store of exS3 after the first reaction call. -/
def exS3b : Store :=
  { users := [{ id := 1, isOnline := true }, { id := 4, isOnline := true }],
    conversations := [{ id := 7, members := [1, 4] }],
    messages := [exM3],
    nextMessageId := 6 }

/-- C3 witness: the idempotence theorem instantiated on the concrete store,
checking that the second identical reaction call returns the same row, stores
the same reaction set, and that the first call grew the set by one. -/
theorem C3_witness :
    (addReactionToMessage exS3b 5 { emoji := "+1", userId := 1 }).2 = some exM3
    ∧ findMessage (addReactionToMessage exS3b 5 { emoji := "+1", userId := 1 }).1 5 = some exM3
    ∧ (hasReaction ([] : List Reaction) 1 "+1" = false →
        exM3.reactions.length = ([] : List Reaction).length + 1) :=
  C3_reaction_idempotent exS3 5 { emoji := "+1", userId := 1 } exS3b
    { id := 5, conversationId := 7, senderId := 4, content := "m",
      attachments := [], reactions := [], isEdited := false }
    exM3 (by decide) (by decide)

/-- Fan-out emits only the one envelope it is given. -/
theorem sendToMembers_all_ev (w : World) (ms : List Nat) (ev : OutEvent) :
    (sendToMembers w ms ev).all (fun d => d.2 == ev) = true := by
  induction ms with
  | nil => rfl
  | cons a t ih =>
    simp only [sendToMembers, List.filterMap_cons] at ih ⊢
    cases mapGet w.clients a with
    | none => exact ih
    | some cid =>
      by_cases hop : connOpen w cid = true
      · simp [hop, ih]
      · simp only [hop]
        simp at hop
        simp [hop, ih]

/-- Example world for the attachments-only scenario: user 1 is authenticated
on open connection 10 and conversation 7 exists. -/
def exW4 : World :=
  { conns := [{ id := 10, isOpen := true, user := some 1 }],
    clients := [(1, 10)],
    store := { users := [{ id := 1, isOnline := true }],
               conversations := [{ id := 7, members := [1] }],
               messages := [], nextMessageId := 0 } }

/-- An attachments-only send-message envelope: empty content, one attachment. -/
def pAttachOnly : MessagePayload :=
  { ptype := "message", conversationId := some 7, message := some "",
    attachments := some [{ name := "a.png", mime := "image/png", url := "/up/a.png", size := none }] }

/-- C4: the claim asserts that an attachments-only message with empty string
content is accepted. In the concrete world the gateway instead answers the
error envelope Invalid message format and leaves the store untouched, because
the validity check tests the truthiness of the content string and an empty
string is falsy, refuting the claim. -/
theorem C4_counterexample :
    handleMessageEvent exW4 10 pAttachOnly
      = (exW4, [(10, OutEvent.error "Invalid message format")]) := by decide

/-- C4 (amended): an authenticated send-message envelope is accepted exactly
when it carries a truthy conversationId and a non-empty content string; a
non-empty attachments array does not compensate for empty content, which is
rejected with the error envelope Invalid message format and no store write. -/
theorem C4_content_required (w : World) (c : ConnId) (u k : Nat) (content : String)
    (atts : List Attachment) (ua : User) (conv : Conversation)
    (h1 : connUser w c = some u) (h2 : u ≠ 0) (h3 : k ≠ 0)
    (h5 : getUser w.store u = some ua)
    (h6 : getConversationById w.store k = some conv) :
    (handleMessageEvent w c
        { ptype := "message", conversationId := some k, message := some "",
          attachments := some atts }
      = (w, [(c, OutEvent.error "Invalid message format")]))
    ∧ (content ≠ "" →
        (handleMessageEvent w c
            { ptype := "message", conversationId := some k, message := some content,
              attachments := some atts }).1.store.messages
          = w.store.messages ++ [freshMessage w.store k u content atts]
        ∧ ((handleMessageEvent w c
            { ptype := "message", conversationId := some k, message := some content,
              attachments := some atts }).2).all
            (fun d => d.2 == OutEvent.new_message k (freshMessage w.store k u content atts))
            = true) := by
  constructor
  · simp [handleMessageEvent, h1, natTruthy, strTruthy, h2]
  · intro hc
    have hc2 : getConversationById
        (storeAfterInsert w.store (freshMessage w.store k u content atts)) k
        = some conv := by
      simpa [getConversationById, storeAfterInsert] using h6
    have hrun : handleMessageEvent w c
        { ptype := "message", conversationId := some k, message := some content,
          attachments := some atts }
        = ({ w with store := storeAfterInsert w.store (freshMessage w.store k u content atts) },
           sendToMembers w conv.members
             (OutEvent.new_message k (freshMessage w.store k u content atts))) := by
      simp only [handleMessageEvent, h1]
      simp [natTruthy, strTruthy, h2, h3, hc]
      rw [createMessage_eq w.store k u content atts conv ua h6 h5]
      simp [hc2, sendToMembers_store]
    rw [hrun]
    exact ⟨by simp [storeAfterInsert], sendToMembers_all_ev w conv.members _⟩

/-- C4 witness: the amended acceptance criterion instantiated concretely; the
empty-content branch rejects and the non-empty branch persists and fans out
only new_message envelopes. -/
theorem C4_witness :
    (handleMessageEvent exW4 10
        { ptype := "message", conversationId := some 7, message := some "",
          attachments := some [{ name := "a.png", mime := "image/png", url := "/up/a.png", size := none }] }
      = (exW4, [(10, OutEvent.error "Invalid message format")]))
    ∧ ("x" ≠ "" →
        (handleMessageEvent exW4 10
            { ptype := "message", conversationId := some 7, message := some "x",
              attachments := some [{ name := "a.png", mime := "image/png", url := "/up/a.png", size := none }] }).1.store.messages
          = exW4.store.messages
              ++ [freshMessage exW4.store 7 1 "x"
                    [{ name := "a.png", mime := "image/png", url := "/up/a.png", size := none }]]
        ∧ ((handleMessageEvent exW4 10
            { ptype := "message", conversationId := some 7, message := some "x",
              attachments := some [{ name := "a.png", mime := "image/png", url := "/up/a.png", size := none }] }).2).all
            (fun d => d.2 == OutEvent.new_message 7
              (freshMessage exW4.store 7 1 "x"
                [{ name := "a.png", mime := "image/png", url := "/up/a.png", size := none }]))
            = true) :=
  C4_content_required exW4 10 1 7 "x"
    [{ name := "a.png", mime := "image/png", url := "/up/a.png", size := none }]
    { id := 1, isOnline := true } { id := 7, members := [1] }
    (by decide) (by decide) (by decide) (by decide) (by decide)

/-- The status broadcast to a single reachable interested peer. -/
theorem broadcastUserStatus_single (w : World) (u p k : Nat) (cp : ConnId) (b : Bool) (usr : User)
    (hget : getUser w.store u = some usr)
    (hconvs : getConversationsForUser w.store u = [{ id := k, members := [u, p] }])
    (hp : p ≠ u)
    (hmap : mapGet w.clients p = some cp)
    (hopen : connOpen w cp = true) :
    broadcastUserStatus w u b = [(cp, OutEvent.user_status u b)] := by
  have huniq : uniqueMembersOf [{ id := k, members := [u, p] }] = [u, p] := by
    simp [uniqueMembersOf, setAdd, hp]
  simp only [broadcastUserStatus, hget, hconvs, huniq]
  simp only [List.filter, bne_self_eq_false]
  have hpu : (p != u) = true := by simp [hp]
  simp only [hpu, List.filterMap, hmap, hopen, if_true]

/-- The world after the authenticate branch: closure userId assigned, registry
entry set, store user flagged online. -/
def authWorld (w : World) (c : ConnId) (u : Nat) : World :=
  let w1 := setConnUser w c (some u)
  let w2 := { w1 with clients := mapSet w1.clients u c }
  { w2 with store := (updateUserOnlineStatus w2.store u true).1 }

/-- The world after the close handler for a truthy userId: transport closed,
registry entry deleted, store user flagged offline. -/
def closeWorld (w : World) (c : ConnId) (u : Nat) : World :=
  let w0 := setConnOpen w c false
  let w1 := { w0 with clients := mapDelete w0.clients u }
  { w1 with store := (updateUserOnlineStatus w1.store u false).1 }

/-- Example world for the reconnect-storm scenario: user 1 is already online,
already registered on open connection 10; user 2 is the interested peer on
open connection 11; conversation 7 holds both. -/
def exW5 : World :=
  { conns := [{ id := 10, isOpen := true, user := some 1 },
              { id := 11, isOpen := true, user := some 2 }],
    clients := [(1, 10), (2, 11)],
    store := { users := [{ id := 1, isOnline := true }, { id := 2, isOnline := true }],
               conversations := [{ id := 7, members := [1, 2] }],
               messages := [], nextMessageId := 0 } }

/-- The repeated authenticate envelope of the reconnect storm. -/
def pAuth5 : MessagePayload := { ptype := "authenticate", authValue := some 1 }

/-- C5: the claim asserts that no duplicate online broadcast is sent when an
already-online user authenticates again. In the concrete world user 1 is
already online and registered, yet a further authenticate envelope still
pushes user_status isOnline true to the interested peer, refuting the claim:
the handler never consults the previous known state. -/
theorem C5_counterexample :
    (handleMessageEvent exW5 10 pAuth5).2 = [(11, OutEvent.user_status 1 true)] := by decide

/-- C5 (amended): a user_status isOnline true envelope is broadcast to every
reachable interested peer on every authenticate event carrying a valid numeric
user id, regardless of the previously stored online state (duplicates are not
suppressed during a reconnect storm), and a user_status isOnline false
envelope on every close of a connection whose closure userId is truthy,
regardless of the previously stored state. -/
theorem C5_status_broadcast_every_event (w : World) (c cp : ConnId) (u p k : Nat) (usr : User)
    (hu0 : u ≠ 0) (hp : p ≠ u)
    (hget : getUser w.store u = some usr)
    (hconvs : getConversationsForUser w.store u = [{ id := k, members := [u, p] }])
    (hmap : mapGet w.clients p = some cp)
    (hopen : connOpen w cp = true)
    (hcu : connUser w c = some u) (hcp : cp ≠ c) :
    (handleMessageEvent w c { ptype := "authenticate", authValue := some u }).2
      = [(cp, OutEvent.user_status u true)]
    ∧ (handleClose w c).2 = [(cp, OutEvent.user_status u false)] := by
  constructor
  · have hrun : handleMessageEvent w c { ptype := "authenticate", authValue := some u }
        = (authWorld w c u, broadcastUserStatus (authWorld w c u) u true) := rfl
    rw [hrun]
    refine broadcastUserStatus_single (authWorld w c u) u p k cp true
      { usr with isOnline := true } ?_ ?_ hp ?_ ?_
    · exact getUser_updateOnline_self w.store u true usr hget
    · exact hconvs
    · have h1 : (authWorld w c u).clients = mapSet w.clients u c := rfl
      rw [h1, mapGet_mapSet_ne w.clients u p c hp]
      exact hmap
    · have h2 : connOpen (authWorld w c u) cp = connOpen (setConnUser w c (some u)) cp := rfl
      rw [h2, connOpen_setConnUser]
      exact hopen
  · have hz : (u == 0) = false := by simp [hu0]
    have hrun : handleClose w c
        = (closeWorld w c u, broadcastUserStatus (closeWorld w c u) u false) := by
      simp only [handleClose, hcu, hz, Bool.false_eq_true, if_false, closeWorld]
    rw [hrun]
    refine broadcastUserStatus_single (closeWorld w c u) u p k cp false
      { usr with isOnline := false } ?_ ?_ hp ?_ ?_
    · exact getUser_updateOnline_self w.store u false usr hget
    · exact hconvs
    · have h1 : (closeWorld w c u).clients = mapDelete w.clients u := rfl
      rw [h1, mapGet_mapDelete_ne w.clients u p hp]
      exact hmap
    · have h2 : connOpen (closeWorld w c u) cp = connOpen (setConnOpen w c false) cp := rfl
      rw [h2, connOpen_setConnOpen_ne w c false cp hcp]
      exact hopen

/-- C5 witness: in the concrete world where user 1 is already online, both the
repeated authenticate and the close still broadcast the status transition to
the peer connection 11. -/
theorem C5_witness :
    (handleMessageEvent exW5 10 { ptype := "authenticate", authValue := some 1 }).2
      = [(11, OutEvent.user_status 1 true)]
    ∧ (handleClose exW5 10).2 = [(11, OutEvent.user_status 1 false)] :=
  C5_status_broadcast_every_event exW5 10 11 1 2 7 { id := 1, isOnline := true }
    (by decide) (by decide) (by decide) (by decide) (by decide) (by decide)
    (by decide) (by decide)

/-- Draining always emits a prefix of the queue and leaves the matching suffix. -/
theorem drainQueue_take_drop (sendOk : Nat → Bool) (q : List QueuedMessage) :
    ∀ i : Nat, ∃ kk : Nat,
      (drainQueue sendOk q i).1 = q.take kk ∧ (drainQueue sendOk q i).2 = q.drop kk := by
  induction q with
  | nil => intro i; exact ⟨0, rfl, rfl⟩
  | cons m rest ih =>
    intro i
    by_cases hok : sendOk i = true
    · obtain ⟨kk, h1, h2⟩ := ih (i + 1)
      refine ⟨kk + 1, ?_, ?_⟩
      · simp [drainQueue, hok, h1]
      · simp [drainQueue, hok, h2]
    · refine ⟨0, ?_, ?_⟩ <;> simp [drainQueue, hok]

/-- With every send succeeding, draining empties the queue in order. -/
theorem drainQueue_all_ok (sendOk : Nat → Bool) (hall : ∀ i, sendOk i = true)
    (q : List QueuedMessage) : ∀ i : Nat, drainQueue sendOk q i = (q, []) := by
  induction q with
  | nil => intro i; rfl
  | cons m rest ih =>
    intro i
    simp [drainQueue, hall i, ih (i + 1)]

/-- C6: the outbound queue drains strictly in FIFO submission order: whatever
the send outcomes, the emitted entries are a prefix of the queue in order and
the remaining queue is exactly the matching suffix — a failed send halts the
drain with the failed entry back at the head; when the socket is open and
every send succeeds, the full queue is emitted in order and emptied. -/
theorem C6_fifo_drain (socketIsOpen : Bool) (sendOk : Nat → Bool) (q : List QueuedMessage) :
    (∃ kk : Nat,
      (processMessageQueue socketIsOpen sendOk q).1 = q.take kk
      ∧ (processMessageQueue socketIsOpen sendOk q).2 = q.drop kk)
    ∧ (socketIsOpen = true → (∀ i, sendOk i = true) →
        processMessageQueue socketIsOpen sendOk q = (q, [])) := by
  constructor
  · by_cases hopen : (socketIsOpen && !q.isEmpty) = true
    · have := drainQueue_take_drop sendOk q 0
      simpa [processMessageQueue, hopen] using this
    · exact ⟨0, by simp [processMessageQueue, hopen], by simp [processMessageQueue, hopen]⟩
  · intro hso hall
    by_cases hemp : q.isEmpty = true
    · have : q = [] := by simpa using hemp
      simp [processMessageQueue, this]
    · have hcond : (socketIsOpen && !q.isEmpty) = true := by simp [hso, hemp]
      simp [processMessageQueue, hcond, drainQueue_all_ok sendOk hall q 0]

/-- C6 witness: three queued actions drain in submission order m1, m2, m3 and
the queue is left empty. -/
theorem C6_witness :
    (∃ kk : Nat,
      (processMessageQueue true (fun i => true)
        [QueuedMessage.message 7 "m1" [], QueuedMessage.edit_message 5 "m2",
         QueuedMessage.add_reaction 5 "m3"]).1
        = [QueuedMessage.message 7 "m1" [], QueuedMessage.edit_message 5 "m2",
           QueuedMessage.add_reaction 5 "m3"].take kk
      ∧ (processMessageQueue true (fun i => true)
        [QueuedMessage.message 7 "m1" [], QueuedMessage.edit_message 5 "m2",
         QueuedMessage.add_reaction 5 "m3"]).2
        = [QueuedMessage.message 7 "m1" [], QueuedMessage.edit_message 5 "m2",
           QueuedMessage.add_reaction 5 "m3"].drop kk)
    ∧ (true = true → (∀ i : Nat, (fun j : Nat => true) i = true) →
        processMessageQueue true (fun i => true)
          [QueuedMessage.message 7 "m1" [], QueuedMessage.edit_message 5 "m2",
           QueuedMessage.add_reaction 5 "m3"]
          = ([QueuedMessage.message 7 "m1" [], QueuedMessage.edit_message 5 "m2",
              QueuedMessage.add_reaction 5 "m3"], [])) :=
  C6_fifo_drain true (fun i => true)
    [QueuedMessage.message 7 "m1" [], QueuedMessage.edit_message 5 "m2",
     QueuedMessage.add_reaction 5 "m3"]

/-- Unfolding one step of a client reconnect run. -/
theorem runClient_cons (s : ClientConnState) (e : ClientEvent) (t : List ClientEvent) :
    runClient s (e :: t)
      = ((runClient (clientStep s e).1 t).1,
         (clientStep s e).2.toNat + (runClient (clientStep s e).1 t).2) := rfl

/-- An openOk-free run schedules at most the remaining attempt budget: the
schedule count plus the attempt counter plus the pending-timer flag never
exceeds the bound, unless the run schedules nothing at all. -/
theorem runClient_sched_bound (es : List ClientEvent) :
    ∀ s : ClientConnState,
      es.all (fun e => e != ClientEvent.openOk) = true →
      (runClient s es).2 + s.reconnectAttempts + s.timerPending.toNat
          ≤ MAX_RECONNECT_ATTEMPTS
        ∨ (runClient s es).2 = 0 := by
  induction es with
  | nil => intro s _; right; rfl
  | cons e t ih =>
    intro s hall
    rw [List.all_cons, Bool.and_eq_true] at hall
    obtain ⟨he, ht⟩ := hall
    rw [runClient_cons]
    cases e with
    | openOk => simp at he
    | timerFire =>
      cases hp : s.timerPending with
      | false =>
        have hstep : clientStep s ClientEvent.timerFire = (s, false) := by
          simp [clientStep, hp]
        rw [hstep]
        have hih := ih s ht
        rw [hp] at hih
        dsimp only
        simp only [Bool.toNat_false] at hih ⊢
        rcases hih with hle | hz
        · left; omega
        · right; omega
      | true =>
        have hstep : clientStep s ClientEvent.timerFire = (fireReconnectTimer s, false) := by
          simp [clientStep, hp]
        rw [hstep]
        have hih := ih (fireReconnectTimer s) ht
        have ha : (fireReconnectTimer s).reconnectAttempts = s.reconnectAttempts + 1 := rfl
        have hb : (fireReconnectTimer s).timerPending = false := rfl
        rw [ha, hb] at hih
        dsimp only
        simp only [Bool.toNat_false, Bool.toNat_true] at hih ⊢
        rcases hih with hle | hz
        · left; omega
        · right; omega
    | reconnectCall =>
      by_cases hsch : s.timerPending = false ∧ natTruthy s.currentUserId = true
          ∧ s.reconnectAttempts < MAX_RECONNECT_ATTEMPTS
      · obtain ⟨hp, hnt, hlt⟩ := hsch
        have hrs : reconnectSocket s
            = ({ s with timerPending := true }, some RECONNECT_DELAY_MS) := by
          simp [reconnectSocket, hp, hnt, hlt]
        have hstep : clientStep s ClientEvent.reconnectCall
            = ({ s with timerPending := true }, true) := by
          simp [clientStep, hrs]
        rw [hstep]
        have hih := ih { s with timerPending := true } ht
        have ha : ({ s with timerPending := true } : ClientConnState).reconnectAttempts
            = s.reconnectAttempts := rfl
        have hb : ({ s with timerPending := true } : ClientConnState).timerPending = true := rfl
        rw [ha, hb] at hih
        rw [hp]
        dsimp only
        simp only [Bool.toNat_false, Bool.toNat_true] at hih ⊢
        rcases hih with hle | hz
        · left; omega
        · left; omega
      · have hrs : reconnectSocket s = (s, none) := by
          simp only [reconnectSocket]
          by_cases h1 : (s.timerPending || !natTruthy s.currentUserId) = true
          · rw [if_pos h1]
          · rw [if_neg h1]
            have h1a : s.timerPending = false := by
              cases hpb : s.timerPending
              · rfl
              · exact absurd (by simp [hpb]) h1
            have h1b : natTruthy s.currentUserId = true := by
              cases hnb : natTruthy s.currentUserId
              · exact absurd (by simp [hnb]) h1
              · rfl
            have hnlt : ¬ s.reconnectAttempts < MAX_RECONNECT_ATTEMPTS := fun hlt =>
              hsch ⟨h1a, h1b, hlt⟩
            rw [if_neg hnlt]
        have hstep : clientStep s ClientEvent.reconnectCall = (s, false) := by
          simp [clientStep, hrs]
        rw [hstep]
        have hih := ih s ht
        dsimp only
        simp only [Bool.toNat_false]
        rcases hih with hle | hz
        · left; omega
        · right; omega

/-- C7: the client reconnection policy: a pending timer blocks further
scheduling (at most one pending attempt at a time); every scheduled attempt
uses the fixed 3000 ms delay; once the attempt counter reaches the bound no
further attempt is scheduled; a successful open resets the counter; and any
run without a successful open schedules at most MAX_RECONNECT_ATTEMPTS
reconnection attempts in total from a fresh state. -/
theorem C7_reconnect_policy :
    (∀ s : ClientConnState, s.timerPending = true → reconnectSocket s = (s, none))
    ∧ (∀ (s s2 : ClientConnState) (d : Nat), reconnectSocket s = (s2, some d) → d = 3000)
    ∧ (∀ s : ClientConnState, MAX_RECONNECT_ATTEMPTS ≤ s.reconnectAttempts →
        (reconnectSocket s).2 = none)
    ∧ (∀ s : ClientConnState, (socketOpenSuccess s).reconnectAttempts = 0)
    ∧ (∀ (uid : Nat) (es : List ClientEvent),
        es.all (fun e => e != ClientEvent.openOk) = true →
        (runClient { timerPending := false, reconnectAttempts := 0, currentUserId := some uid } es).2
          ≤ MAX_RECONNECT_ATTEMPTS) := by
  refine ⟨?_, ?_, ?_, ?_, ?_⟩
  · intro s hs; simp [reconnectSocket, hs]
  · intro s s2 d h
    simp only [reconnectSocket] at h
    by_cases h1 : (s.timerPending || !natTruthy s.currentUserId) = true
    · rw [if_pos h1] at h; simp at h
    · rw [if_neg h1] at h
      by_cases h2 : s.reconnectAttempts < MAX_RECONNECT_ATTEMPTS
      · rw [if_pos h2] at h
        have : some RECONNECT_DELAY_MS = some d := congrArg Prod.snd h
        simpa [RECONNECT_DELAY_MS] using this.symm
      · rw [if_neg h2] at h; simp at h
  · intro s hs
    simp only [reconnectSocket]
    by_cases h1 : (s.timerPending || !natTruthy s.currentUserId) = true
    · rw [if_pos h1]
    · rw [if_neg h1, if_neg (by omega)]
  · intro s; rfl
  · intro uid es hall
    have h := runClient_sched_bound es
      { timerPending := false, reconnectAttempts := 0, currentUserId := some uid } hall
    rcases h with hle | hz
    · simpa using hle
    · rw [hz]; exact Nat.zero_le _

/-- C7 witness: the policy instantiated concretely: a pending timer blocks, a
schedule returns the 3000 ms delay, an exhausted counter schedules nothing,
open resets, and a six-call storm without opens schedules at most five. -/
theorem C7_witness :
    reconnectSocket { timerPending := true, reconnectAttempts := 0, currentUserId := some 9 }
      = ({ timerPending := true, reconnectAttempts := 0, currentUserId := some 9 }, none)
    ∧ (3000 : Nat) = 3000
    ∧ (reconnectSocket { timerPending := false, reconnectAttempts := 5, currentUserId := some 9 }).2 = none
    ∧ (socketOpenSuccess { timerPending := true, reconnectAttempts := 3, currentUserId := some 9 }).reconnectAttempts = 0
    ∧ (runClient { timerPending := false, reconnectAttempts := 0, currentUserId := some 9 }
        [ClientEvent.reconnectCall, ClientEvent.timerFire, ClientEvent.reconnectCall,
         ClientEvent.timerFire, ClientEvent.reconnectCall, ClientEvent.timerFire,
         ClientEvent.reconnectCall, ClientEvent.timerFire, ClientEvent.reconnectCall,
         ClientEvent.timerFire, ClientEvent.reconnectCall, ClientEvent.reconnectCall]).2
        ≤ MAX_RECONNECT_ATTEMPTS :=
  ⟨C7_reconnect_policy.1 _ rfl,
   C7_reconnect_policy.2.1
     { timerPending := false, reconnectAttempts := 0, currentUserId := some 9 }
     { timerPending := true, reconnectAttempts := 0, currentUserId := some 9 }
     3000 (by decide),
   C7_reconnect_policy.2.2.1 _ (by decide),
   C7_reconnect_policy.2.2.2.1 _,
   C7_reconnect_policy.2.2.2.2 9 _ (by decide)⟩

/-- Shared falsiness lemma: on a connection whose closure userId is falsy
(unset, NaN, or the numeric id 0), the four mutating actions answer their
error envelope with no state change and no other delivery, while typing is
dropped silently. -/
theorem unauth_actions (w : World) (c : ConnId) (p : MessagePayload)
    (h : natTruthy (connUser w c) = false) :
    (p.ptype = "message" →
      handleMessageEvent w c p = (w, [(c, OutEvent.error "Not authenticated")]))
    ∧ (p.ptype = "edit_message" →
      handleMessageEvent w c p = (w, [(c, OutEvent.error "Invalid message edit format")]))
    ∧ (p.ptype = "add_reaction" →
      handleMessageEvent w c p = (w, [(c, OutEvent.error "Invalid reaction format")]))
    ∧ (p.ptype = "remove_reaction" →
      handleMessageEvent w c p = (w, [(c, OutEvent.error "Invalid reaction removal format")]))
    ∧ (p.ptype = "typing" → handleMessageEvent w c p = (w, [])) := by
  refine ⟨?_, ?_, ?_, ?_, ?_⟩ <;> intro hty <;> simp [handleMessageEvent, hty, h]

/-- Example world for the unauthenticated scenario: connection 10 is open and
unauthenticated; user 2 is a reachable member of conversation 7. -/
def exW8 : World :=
  { conns := [{ id := 10, isOpen := true, user := none },
              { id := 11, isOpen := true, user := some 2 }],
    clients := [(2, 11)],
    store := { users := [{ id := 1, isOnline := true }, { id := 2, isOnline := true }],
               conversations := [{ id := 7, members := [1, 2] }],
               messages := [], nextMessageId := 0 } }

/-- C8: the claim asserts that a typing envelope on an unauthenticated
connection is answered with an error envelope. In the concrete world the
typing branch merely breaks on a falsy userId: no error envelope, no store
write and no delivery to the reachable member of the conversation, refuting
the claim for the typing action. -/
theorem C8_counterexample :
    handleMessageEvent exW8 10 { ptype := "typing", conversationId := some 7 }
      = (exW8, []) := by decide

/-- C8 (amended): on a connection that has not authenticated, each of message,
edit_message, add_reaction and remove_reaction is answered with exactly one
error envelope to that same connection, with no Store write and no delivery to
any other connection; a typing envelope, however, is dropped silently with no
error envelope and likewise no Store write or delivery. -/
theorem C8_unauth_error_envelopes (w : World) (c : ConnId) (p : MessagePayload)
    (h : connUser w c = none) :
    (p.ptype = "message" →
      handleMessageEvent w c p = (w, [(c, OutEvent.error "Not authenticated")]))
    ∧ (p.ptype = "edit_message" →
      handleMessageEvent w c p = (w, [(c, OutEvent.error "Invalid message edit format")]))
    ∧ (p.ptype = "add_reaction" →
      handleMessageEvent w c p = (w, [(c, OutEvent.error "Invalid reaction format")]))
    ∧ (p.ptype = "remove_reaction" →
      handleMessageEvent w c p = (w, [(c, OutEvent.error "Invalid reaction removal format")]))
    ∧ (p.ptype = "typing" → handleMessageEvent w c p = (w, [])) := by
  have hf : natTruthy (connUser w c) = false := by rw [h]; rfl
  exact unauth_actions w c p hf

/-- C8 witness: the amended statement instantiated for each envelope type on
the unauthenticated connection 10 of the concrete world. -/
theorem C8_witness :
    (handleMessageEvent exW8 10 { ptype := "message", conversationId := some 7, message := some "x" }
      = (exW8, [(10, OutEvent.error "Not authenticated")]))
    ∧ (handleMessageEvent exW8 10 { ptype := "edit_message", messageId := some 5, content := some "x" }
      = (exW8, [(10, OutEvent.error "Invalid message edit format")]))
    ∧ (handleMessageEvent exW8 10 { ptype := "add_reaction", messageId := some 5, emoji := some "e" }
      = (exW8, [(10, OutEvent.error "Invalid reaction format")]))
    ∧ (handleMessageEvent exW8 10 { ptype := "remove_reaction", messageId := some 5, emoji := some "e" }
      = (exW8, [(10, OutEvent.error "Invalid reaction removal format")]))
    ∧ (handleMessageEvent exW8 10 { ptype := "typing", conversationId := some 7 } = (exW8, [])) :=
  ⟨(C8_unauth_error_envelopes exW8 10 _ (by decide)).1 rfl,
   (C8_unauth_error_envelopes exW8 10 _ (by decide)).2.1 rfl,
   (C8_unauth_error_envelopes exW8 10 _ (by decide)).2.2.1 rfl,
   (C8_unauth_error_envelopes exW8 10 _ (by decide)).2.2.2.1 rfl,
   (C8_unauth_error_envelopes exW8 10 _ (by decide)).2.2.2.2 rfl⟩

/-- Example world for the missing-conversation scenario: user 1 is
authenticated on open connection 10; the store has no conversations and no
messages. -/
def exW9 : World :=
  { conns := [{ id := 10, isOpen := true, user := some 1 }],
    clients := [(1, 10)],
    store := { users := [{ id := 1, isOnline := true }], conversations := [],
               messages := [], nextMessageId := 0 } }

/-- C9: the claim asserts that a not-found conversation produces exactly one
error envelope to the originating connection. In the concrete world a
send-message naming the nonexistent conversation 777 produces no envelope at
all: the insert violates the conversation_id foreign key and throws, the
surrounding catch swallows the exception, and the handler sends nothing —
zero error envelopes instead of exactly one, refuting the claim (the store is
also left unchanged). -/
theorem C9_counterexample :
    handleMessageEvent exW9 10
      { ptype := "message", conversationId := some 777, message := some "hi" }
      = (exW9, []) := by decide

/-- C9 (amended): the listed domain validation failures — empty content,
missing emoji, not-found message — each produce exactly one error envelope
sent only to the originating connection with no prior Store write; a
send-message naming a not-found conversation likewise causes no Store write
(the insert violates the conversation_id foreign key, throws, and the catch
swallows it) but produces no error envelope at all. -/
theorem C9_validation_errors (w : World) (c : ConnId) (u mid k : Nat) (content em : String)
    (h1 : connUser w c = some u) (h2 : u ≠ 0)
    (hm : mid ≠ 0) (hcnt : content ≠ "") (hem : em ≠ "")
    (hfm : findMessage w.store mid = none)
    (hk : k ≠ 0)
    (hconv : getConversationById w.store k = none) :
    (handleMessageEvent w c { ptype := "message", conversationId := some k, message := some "" }
      = (w, [(c, OutEvent.error "Invalid message format")]))
    ∧ (handleMessageEvent w c { ptype := "add_reaction", messageId := some mid }
      = (w, [(c, OutEvent.error "Invalid reaction format")]))
    ∧ (handleMessageEvent w c { ptype := "edit_message", messageId := some mid, content := some content }
      = (w, [(c, OutEvent.error "Failed to update message")]))
    ∧ (handleMessageEvent w c { ptype := "add_reaction", messageId := some mid, emoji := some em }
      = (w, [(c, OutEvent.error "Failed to add reaction")]))
    ∧ (handleMessageEvent w c { ptype := "message", conversationId := some k, message := some content }
      = (w, [])) := by
  refine ⟨?_, ?_, ?_, ?_, ?_⟩
  · simp [handleMessageEvent, h1, natTruthy, strTruthy, h2]
  · simp [handleMessageEvent, h1, natTruthy, strTruthy, h2]
  · simp [handleMessageEvent, h1, natTruthy, strTruthy, h2, hm, hcnt, updateMessage, hfm]
  · simp [handleMessageEvent, h1, natTruthy, strTruthy, h2, hm, hem, addReactionToMessage, hfm]
  · simp [handleMessageEvent, h1, natTruthy, strTruthy, h2, hk, hcnt, createMessage, hconv]

/-- C9 witness: the validation behavior instantiated in the concrete world:
each listed failure answers its single error envelope to connection 10, and
the missing-conversation send is dropped with no envelope and no write. -/
theorem C9_witness :
    (handleMessageEvent exW9 10 { ptype := "message", conversationId := some 777, message := some "" }
      = (exW9, [(10, OutEvent.error "Invalid message format")]))
    ∧ (handleMessageEvent exW9 10 { ptype := "add_reaction", messageId := some 5 }
      = (exW9, [(10, OutEvent.error "Invalid reaction format")]))
    ∧ (handleMessageEvent exW9 10 { ptype := "edit_message", messageId := some 5, content := some "x" }
      = (exW9, [(10, OutEvent.error "Failed to update message")]))
    ∧ (handleMessageEvent exW9 10 { ptype := "add_reaction", messageId := some 5, emoji := some "e" }
      = (exW9, [(10, OutEvent.error "Failed to add reaction")]))
    ∧ (handleMessageEvent exW9 10 { ptype := "message", conversationId := some 777, message := some "hi" }
      = (exW9, [])) :=
  C9_validation_errors exW9 10 1 5 777 "hi" "e"
    (by decide) (by decide) (by decide) (by decide) (by decide) (by decide)
    (by decide) (by decide)

/-- Example world for the user-id-0 scenario: connection 10 is open and
unauthenticated; the store has a user with id 0, currently offline. -/
def exW10 : World :=
  { conns := [{ id := 10, isOpen := true, user := none }],
    clients := [],
    store := { users := [{ id := 0, isOnline := false }], conversations := [],
               messages := [], nextMessageId := 0 } }

/-- C10: authenticating with the numeric user id 0 registers the connection
under key 0, marks user 0 online in the Store and records 0 as the closure
userId, yet every subsequent message, edit_message, add_reaction or
remove_reaction envelope on that connection is rejected with the
Not authenticated or invalid-format error envelope, because the gateway tests
the stored user id with a JavaScript falsiness check and 0 is falsy. -/
theorem C10_auth_zero_lockout (w : World) (c : ConnId) (cn : Conn) (u0 : User)
    (p : MessagePayload)
    (hc : findConn w c = some cn)
    (hu : getUser w.store 0 = some u0) :
    (handleMessageEvent w c { ptype := "authenticate", authValue := some 0 }).1 = authWorld w c 0
    ∧ mapGet (authWorld w c 0).clients 0 = some c
    ∧ getUser (authWorld w c 0).store 0 = some { u0 with isOnline := true }
    ∧ connUser (authWorld w c 0) c = some 0
    ∧ (p.ptype = "message" → handleMessageEvent (authWorld w c 0) c p
        = (authWorld w c 0, [(c, OutEvent.error "Not authenticated")]))
    ∧ (p.ptype = "edit_message" → handleMessageEvent (authWorld w c 0) c p
        = (authWorld w c 0, [(c, OutEvent.error "Invalid message edit format")]))
    ∧ (p.ptype = "add_reaction" → handleMessageEvent (authWorld w c 0) c p
        = (authWorld w c 0, [(c, OutEvent.error "Invalid reaction format")]))
    ∧ (p.ptype = "remove_reaction" → handleMessageEvent (authWorld w c 0) c p
        = (authWorld w c 0, [(c, OutEvent.error "Invalid reaction removal format")])) := by
  have hcu : connUser (authWorld w c 0) c = some 0 := by
    have h2 : connUser (authWorld w c 0) c = connUser (setConnUser w c (some 0)) c := rfl
    rw [h2, connUser_setConnUser_self w c (some 0) cn hc]
  have hf : natTruthy (connUser (authWorld w c 0) c) = false := by rw [hcu]; rfl
  have hacts := unauth_actions (authWorld w c 0) c p hf
  refine ⟨rfl, ?_, ?_, hcu, hacts.1, hacts.2.1, hacts.2.2.1, hacts.2.2.2.1⟩
  · have h1 : (authWorld w c 0).clients = mapSet w.clients 0 c := rfl
    rw [h1]
    exact mapGet_mapSet_self w.clients 0 c
  · exact getUser_updateOnline_self w.store 0 true u0 hu

/-- C10 witness: the user-id-0 lockout instantiated in the concrete world:
registration and online flag succeed, then each mutating envelope is rejected. -/
theorem C10_witness :
    (handleMessageEvent exW10 10 { ptype := "authenticate", authValue := some 0 }).1
      = authWorld exW10 10 0
    ∧ mapGet (authWorld exW10 10 0).clients 0 = some 10
    ∧ getUser (authWorld exW10 10 0).store 0 = some { id := 0, isOnline := true }
    ∧ connUser (authWorld exW10 10 0) 10 = some 0
    ∧ (handleMessageEvent (authWorld exW10 10 0) 10
        { ptype := "message", conversationId := some 7, message := some "x" }
        = (authWorld exW10 10 0, [(10, OutEvent.error "Not authenticated")]))
    ∧ (handleMessageEvent (authWorld exW10 10 0) 10
        { ptype := "edit_message", messageId := some 5, content := some "x" }
        = (authWorld exW10 10 0, [(10, OutEvent.error "Invalid message edit format")]))
    ∧ (handleMessageEvent (authWorld exW10 10 0) 10
        { ptype := "add_reaction", messageId := some 5, emoji := some "e" }
        = (authWorld exW10 10 0, [(10, OutEvent.error "Invalid reaction format")]))
    ∧ (handleMessageEvent (authWorld exW10 10 0) 10
        { ptype := "remove_reaction", messageId := some 5, emoji := some "e" }
        = (authWorld exW10 10 0, [(10, OutEvent.error "Invalid reaction removal format")])) :=
  ⟨(C10_auth_zero_lockout exW10 10 { id := 10, isOpen := true, user := none }
      { id := 0, isOnline := false } { ptype := "message" } (by decide) (by decide)).1,
   (C10_auth_zero_lockout exW10 10 { id := 10, isOpen := true, user := none }
      { id := 0, isOnline := false } { ptype := "message" } (by decide) (by decide)).2.1,
   (C10_auth_zero_lockout exW10 10 { id := 10, isOpen := true, user := none }
      { id := 0, isOnline := false } { ptype := "message" } (by decide) (by decide)).2.2.1,
   (C10_auth_zero_lockout exW10 10 { id := 10, isOpen := true, user := none }
      { id := 0, isOnline := false } { ptype := "message" } (by decide) (by decide)).2.2.2.1,
   (C10_auth_zero_lockout exW10 10 { id := 10, isOpen := true, user := none }
      { id := 0, isOnline := false }
      { ptype := "message", conversationId := some 7, message := some "x" }
      (by decide) (by decide)).2.2.2.2.1 rfl,
   (C10_auth_zero_lockout exW10 10 { id := 10, isOpen := true, user := none }
      { id := 0, isOnline := false }
      { ptype := "edit_message", messageId := some 5, content := some "x" }
      (by decide) (by decide)).2.2.2.2.2.1 rfl,
   (C10_auth_zero_lockout exW10 10 { id := 10, isOpen := true, user := none }
      { id := 0, isOnline := false }
      { ptype := "add_reaction", messageId := some 5, emoji := some "e" }
      (by decide) (by decide)).2.2.2.2.2.2.1 rfl,
   (C10_auth_zero_lockout exW10 10 { id := 10, isOpen := true, user := none }
      { id := 0, isOnline := false }
      { ptype := "remove_reaction", messageId := some 5, emoji := some "e" }
      (by decide) (by decide)).2.2.2.2.2.2.2 rfl⟩

end Chat
